import Mathlib

/-!
Shallow embedding of the dsync per-table code generator (`src/code.rs`) and
proofs of the specification's claims about it.

Rust strings and identifiers are modelled as Lean `String`; vectors as `List`;
fallible lookups (Rust `expect`, which panics) as `Option`.  The build is
modelled without the optional `tsync` cargo feature, so `attr_tsync` is the
constant empty string (the `cfg(not(feature = "tsync"))` branch of the source).
-/

namespace Dsync

/-- One column of a parsed `table!` macro.  Modelled from the fields the
generator reads: `name`, `ty` and `is_nullable` (the descriptor itself lives in
the out-of-scope parser module). -/
structure Column where
  name : String
  ty : String
  is_nullable : Bool
deriving Repr, DecidableEq

/-- The table descriptor (`ParsedTableMacro` from the parser module, modelled
from the fields the generator reads): table name, record-type base name, the
ordered column list, the declared primary-key column names (idents, modelled as
strings) and the foreign keys as `(referenced table, local join column)`
pairs. -/
structure ParsedTableMacro where
  name : String
  struct_name : String
  columns : List Column
  primary_key_columns : List String
  foreign_keys : List (String × String)
deriving Repr, DecidableEq

/-- `ParsedTableMacro::primary_key_column_names()`: the primary-key idents as
strings; with idents modelled as strings this is the list itself. -/
def ParsedTableMacro.primary_key_column_names (t : ParsedTableMacro) : List String :=
  t.primary_key_columns

/-- Per-table options (`TableOptions` from the config module, modelled from the
fields the generator reads): the optional list of autogenerated column
names. -/
structure TableOptions where
  autogenerated_columns : Option (List String)
deriving Repr, DecidableEq

/-- The generation config (modelled from usage in `code.rs`): the connection
type name and the per-table options lookup `config.table(name)`. -/
structure GenerationConfig where
  connection_type : String
  tableOf : String → TableOptions

/-- `StructType` from `src/code.rs`: the record-shape variants. -/
inductive StructType where
  | Read
  | Form
  | Update
  | Create
deriving Repr, DecidableEq

/-- `StructType::prefix`. -/
def StructType.structPre : StructType → String
  | .Read => ""
  | .Form => ""
  | .Update => "Update"
  | .Create => "Create"

/-- `StructType::suffix`. -/
def StructType.structSuf : StructType → String
  | .Read => ""
  | .Form => "Form"
  | .Update => ""
  | .Create => ""

/-- `StructType::format`: prefix ++ base name ++ suffix. -/
def StructType.format (ty : StructType) (name : String) : String :=
  ty.structPre ++ name ++ ty.structSuf

/-- `StructField` from `src/code.rs`. -/
structure StructField where
  name : String
  base_type : String
  is_optional : Bool
deriving Repr, DecidableEq

/-- The autogenerated-columns test
`opts.autogenerated_columns.as_deref().unwrap_or_default().contains(name)`. -/
def isAutogenerated (opts : TableOptions) (name : String) : Bool :=
  (opts.autogenerated_columns.getD []).contains name

/-- `Struct::fields` (src/code.rs lines 116-164), as a function of the struct
type, table and options it reads: filter the columns by variant, then map each
to a `StructField` whose `base_type` is wrapped in `Option<...>` iff the column
is nullable, and whose `is_optional` is set only by the `Update` arm. -/
def structFields (ty : StructType) (table : ParsedTableMacro) (opts : TableOptions) :
    List StructField :=
  (table.columns.filter (fun c =>
    let is_autogenerated := isAutogenerated opts c.name
    match ty with
    | .Read => true
    | .Form => true
    | .Update =>
      let is_pk := table.primary_key_columns.contains c.name
      !is_pk
    | .Create => !is_autogenerated)).map (fun c =>
    let name := c.name
    let base_type := if c.is_nullable then "Option<" ++ c.ty ++ ">" else c.ty
    let is_pk := table.primary_key_columns.any (fun pk => pk == name)
    let is_autogenerated := isAutogenerated opts c.name
    let is_optional :=
      match ty with
      | .Read => false
      | .Form => false
      | .Update => !is_pk || (is_pk && is_autogenerated)
      | .Create => false
    { name := name, base_type := base_type, is_optional := is_optional })

/-- The field-type text emitted for one field (src/code.rs line 214):
a second `Option<...>` layer is added iff `is_optional`. -/
def fieldTypeStr (f : StructField) : String :=
  if f.is_optional then "Option<" ++ f.base_type ++ ">" else f.base_type

/-- One emitted field line (src/code.rs line 216). -/
def fieldLine (f : StructField) : String :=
  "    pub " ++ f.name ++ ": " ++ fieldTypeStr f ++ ","

/-- The `Struct` record of `src/code.rs` (the `config` reference is dropped:
`render` re-fetches the options from it but never uses them, and every other
use goes through the `opts` field initialised by `Struct::new`). -/
structure Struct where
  identifier : String
  ty : StructType
  table : ParsedTableMacro
  opts : TableOptions
  rendered_code : Option String
  has_fields : Option Bool

/-- `Struct::fields` as a method, delegating to `structFields`. -/
def Struct.fields (s : Struct) : List StructField :=
  structFields s.ty s.table s.opts

/-- `Struct::attr_tsync` in a build without the `tsync` cargo feature: the
constant empty string. -/
def attr_tsync : String := ""

/-- The `derive_associations` part of `Struct::attr_derive`. -/
def derive_associations (ty : StructType) (table : ParsedTableMacro) : String :=
  match ty with
  | .Read => if table.foreign_keys.length > 0 then ", Associations" else ""
  | _ => ""

/-- The `derive_identifiable` part of `Struct::attr_derive`. -/
def derive_identifiable (ty : StructType) (table : ParsedTableMacro) : String :=
  match ty with
  | .Read => if table.foreign_keys.length > 0 then ", Identifiable" else ""
  | _ => ""

/-- The `derive_aschangeset` part of `Struct::attr_derive` (src/code.rs lines
110-112): empty iff every selected field's name is a primary-key column
name. -/
def derive_aschangeset (ty : StructType) (table : ParsedTableMacro) (opts : TableOptions) :
    String :=
  if (structFields ty table opts).all
      (fun f => table.primary_key_column_names.contains f.name) then ""
  else ", AsChangeset"

/-- `Struct::attr_derive` (src/code.rs lines 96-114). -/
def Struct.attr_derive (s : Struct) : String :=
  "#[derive(Debug, Serialize, Deserialize, Clone, Queryable, Insertable" ++
    derive_aschangeset s.ty s.table s.opts ++
    derive_identifiable s.ty s.table ++
    derive_associations s.ty s.table ++ ")]"

/-- Modelled from the external inflector crate (not part of this repository):
a deterministic stand-in for `to_pascal_case`.  No claim depends on its exact
behaviour, only on its determinism. -/
def toPascalCase (s : String) : String := s.capitalize

/-- Modelled from the external inflector crate: stand-in for `to_singular`. -/
def toSingular (s : String) : String := if s.endsWith "s" then s.dropRight 1 else s

/-- Modelled from the external inflector crate: stand-in for `to_snake_case`. -/
def toSnakeCase (s : String) : String := s.toLower

/-- Replace every non-overlapping occurrence of the pattern `p :: ps` in the
input, left to right, by `rep` (the character-list engine behind
`strReplace`). -/
def replaceAux (p : Char) (ps rep : List Char) : List Char → List Char
  | [] => []
  | c :: rest =>
    if (p :: ps).isPrefixOf (c :: rest) then
      rep ++ replaceAux p ps rep (rest.drop ps.length)
    else
      c :: replaceAux p ps rep rest
termination_by s => s.length
decreasing_by
  all_goals simp only [List.length_drop, List.length_cons]
  all_goals omega

/-- Model of Rust `str::replace(pat, rep)`: replace every non-overlapping
occurrence of `pat` left to right.  The generator only calls it with the
nonempty pattern `"$COLUMNS$"`; for an empty pattern this model returns the
input unchanged (that case is never exercised). -/
def strReplace (s pat rep : String) : String :=
  match pat.data with
  | [] => s
  | p :: ps => String.mk (replaceAux p ps rep.data s.data)

/-- The `struct_code` template built inside `Struct::render` (src/code.rs
lines 171-208): derive attributes, the diesel attribute (with primary-key and
belongs-to clauses on `Read` only), the struct header and the `$COLUMNS$`
placeholder.  Literal braces are written with their character codes. -/
def renderStructCode (s : Struct) : String :=
  let table := s.table
  let primary_keys := table.primary_key_column_names
  let belongs_to := String.intercalate " "
    (table.foreign_keys.map (fun fk =>
      ", belongs_to(" ++ toSingular (toPascalCase fk.1) ++ ", foreign_key=" ++ fk.2 ++ ")"))
  attr_tsync ++ s.attr_derive ++
    "\n#[diesel(table_name=" ++ table.name ++
    (if s.ty ≠ StructType.Read then ""
     else ", primary_key(" ++ String.intercalate "," primary_keys ++ ")") ++
    (if s.ty ≠ StructType.Read then "" else belongs_to) ++
    ")]\npub struct " ++ s.ty.format table.struct_name ++
    " \x7b\n$COLUMNS$\n\x7d\n"

/-- `Struct::render` (src/code.rs lines 166-226): build the field lines, and
set `has_fields`/`rendered_code` — to `false`/`""` when there are no fields,
else to `true` and the template with `$COLUMNS$` replaced by the joined
lines. -/
def Struct.render (s : Struct) : Struct :=
  let fields := s.fields
  let lines := fields.map fieldLine
  if fields.isEmpty then
    { s with has_fields := some false, rendered_code := some "" }
  else
    { s with has_fields := some true,
             rendered_code :=
               some (strReplace (renderStructCode s) "$COLUMNS$"
                 (String.intercalate "\n" lines)) }

/-- `Struct::new` (src/code.rs lines 66-78): build the record and immediately
render it. -/
def Struct.new (ty : StructType) (table : ParsedTableMacro) (config : GenerationConfig) :
    Struct :=
  Struct.render
    { identifier := ty.format table.struct_name
      opts := config.tableOf table.name
      table := table
      ty := ty
      rendered_code := none
      has_fields := none }

/-- `Struct::code`: `rendered_code.as_deref().unwrap_or_default()`. -/
def Struct.code (s : Struct) : String := s.rendered_code.getD ""

/-- `Struct::has_fields`, which calls `unwrap()`; the panic on `None` is
modelled by `getD false`, and the C10 theorem shows the `None` case is
unreachable for structs built by `Struct::new`. -/
def Struct.hasFields (s : Struct) : Bool := s.has_fields.getD false

/-- The `primary_column_name_and_type` vector of `build_table_fns` (src/code.rs
lines 232-244): for each declared primary-key column, in declared order, the
matching column's name and type; the `expect` panic when a primary-key column
is missing from the column list is modelled by `none`. -/
def pkNameAndType (columns : List Column) : List String → Option (List (String × String))
  | [] => some []
  | pk :: rest =>
    match columns.find? (fun it => it.name == pk) with
    | none => none
    | some col => (pkNameAndType columns rest).map (fun l => (col.name, col.ty) :: l)

/-- `item_id_params` (src/code.rs lines 246-256). -/
def itemIdParamsStr (l : List (String × String)) : String :=
  String.intercalate ", " (l.map (fun nt => "param_" ++ nt.1 ++ ": " ++ nt.2))

/-- `item_id_filters` (src/code.rs lines 257-266). -/
def itemIdFiltersStr (l : List (String × String)) : String :=
  String.intercalate "." (l.map (fun nt => "filter(" ++ nt.1 ++ ".eq(param_" ++ nt.1 ++ "))"))

/-- The `PaginationResult` block pushed first into the buffer (src/code.rs
lines 283-293), in the non-tsync build. -/
def paginationStructSectionStr : String :=
  "\n#[derive(Serialize)]\npub struct PaginationResult<T> \x7b\n    pub items: Vec<T>,\n    pub total_items: i64,\n    /// 0-based index\n    pub page: i64,\n    pub page_size: i64,\n    pub num_pages: i64,\n\x7d\n"

/-- The `impl` header block (src/code.rs lines 295-297). -/
def implHeaderStr (struct_name : String) : String :=
  "\nimpl " ++ struct_name ++ " \x7b\n"

/-- The `create` block emitted when the Create variant has fields (src/code.rs
lines 300-306): it takes a payload parameter and inserts its values. -/
def createPayloadSectionStr (table_name csi : String) : String :=
  "\n    pub fn create(db: &mut Connection, item: &" ++ csi ++
    ") -> QueryResult<Self> \x7b\n        use crate::schema::" ++ table_name ++
    "::dsl::*;\n\n        insert_into(" ++ table_name ++
    ").values(item).get_result::<Self>(db)\n    \x7d\n"

/-- The `create` block emitted when the Create variant has no fields
(src/code.rs lines 308-314): no payload parameter, default-values insert. -/
def createDefaultSectionStr (table_name : String) : String :=
  "\n    pub fn create(db: &mut Connection) -> QueryResult<Self> \x7b\n        use crate::schema::" ++
    table_name ++ "::dsl::*;\n\n        insert_into(" ++ table_name ++
    ").default_values().get_result::<Self>(db)\n    \x7d\n"

/-- The `read` block (src/code.rs lines 317-323). -/
def readSectionStr (table_name params filters : String) : String :=
  "\n    pub fn read(db: &mut Connection, " ++ params ++
    ") -> QueryResult<Self> \x7b\n        use crate::schema::" ++ table_name ++
    "::dsl::*;\n\n        " ++ table_name ++ "." ++ filters ++
    ".first::<Self>(db)\n    \x7d\n"

/-- The `paginate` block (src/code.rs lines 326-344). -/
def paginateSectionStr (table_name : String) : String :=
  "\n    /// Paginates through the table where page is a 0-based index (i.e. page 0 is the first page)\n    pub fn paginate(db: &mut Connection, page: i64, page_size: i64) -> QueryResult<PaginationResult<Self>> \x7b\n        use crate::schema::" ++
    table_name ++
    "::dsl::*;\n\n        let page_size = if page_size < 1 \x7b 1 \x7d else \x7b page_size \x7d;\n        let total_items = " ++
    table_name ++ ".count().get_result(db)?;\n        let items = " ++ table_name ++
    ".limit(page_size).offset(page * page_size).load::<Self>(db)?;\n\n        Ok(PaginationResult \x7b\n            items,\n            total_items,\n            page,\n            page_size,\n            /* ceiling division of integers */\n            num_pages: total_items / page_size + i64::from(total_items % page_size != 0)\n        \x7d)\n    \x7d\n"

/-- The `update` block emitted when the Update variant has fields (src/code.rs
lines 355-361). -/
def updateSectionStr (table_name params filters usi : String) : String :=
  "\n    pub fn update(db: &mut Connection, " ++ params ++ ", item: &" ++ usi ++
    ") -> QueryResult<Self> \x7b\n        use crate::schema::" ++ table_name ++
    "::dsl::*;\n\n        diesel::update(" ++ table_name ++ "." ++ filters ++
    ").set(item).get_result(db)\n    \x7d\n"

/-- The `delete` block (src/code.rs lines 364-370). -/
def deleteSectionStr (table_name params filters : String) : String :=
  "\n    pub fn delete(db: &mut Connection, " ++ params ++
    ") -> QueryResult<usize> \x7b\n        use crate::schema::" ++ table_name ++
    "::dsl::*;\n\n        diesel::delete(" ++ table_name ++ "." ++ filters ++
    ").execute(db)\n    \x7d\n"

/-- The sections `build_table_fns` pushes into its buffer, in push order; the
update section is `none` exactly when its `push_str` is skipped. -/
structure TableFns where
  item_id_params : String
  item_id_filters : String
  paginationStructSection : String
  implHeader : String
  createSection : String
  readSection : String
  paginateSection : String
  updateSection : Option String
  deleteSection : String
  closeSection : String

/-- The buffer `build_table_fns` returns: the concatenation of its pushes. -/
def TableFns.buffer (fns : TableFns) : String :=
  fns.paginationStructSection ++ fns.implHeader ++ fns.createSection ++
    fns.readSection ++ fns.paginateSection ++ fns.updateSection.getD "" ++
    fns.deleteSection ++ fns.closeSection

/-- `build_table_fns` (src/code.rs lines 229-376), as the ordered sections it
pushes; `none` models the `expect` panic on a primary-key column that is
missing from the column list. -/
def buildTableFns (table : ParsedTableMacro) (create_struct update_struct : Struct) :
    Option TableFns :=
  match pkNameAndType table.columns table.primary_key_columns with
  | none => none
  | some pkl =>
    let item_id_params := itemIdParamsStr pkl
    let item_id_filters := itemIdFiltersStr pkl
    let table_name := table.name
    let struct_name := table.struct_name
    some {
      item_id_params := item_id_params
      item_id_filters := item_id_filters
      paginationStructSection := paginationStructSectionStr
      implHeader := implHeaderStr struct_name
      createSection :=
        if create_struct.hasFields then
          createPayloadSectionStr table_name create_struct.identifier
        else
          createDefaultSectionStr table_name
      readSection := readSectionStr table_name item_id_params item_id_filters
      paginateSection := paginateSectionStr table_name
      updateSection :=
        if update_struct.hasFields then
          some (updateSectionStr table_name item_id_params item_id_filters
            update_struct.identifier)
        else none
      deleteSection := deleteSectionStr table_name item_id_params item_id_filters
      closeSection := "\n\x7d" }

/-- The string `build_table_fns` actually returns. -/
def buildTableFnsStr (table : ParsedTableMacro) (create_struct update_struct : Struct) :
    Option String :=
  (buildTableFns table create_struct update_struct).map TableFns.buffer

/-- The numeric quantities the emitted `paginate` body computes (src/code.rs
lines 331-341): the clamped page size used as the limit, the offset
`page * page_size`, and `num_pages`; Rust `i64` division and remainder are the
truncating `Int.tdiv` / `Int.tmod`, and `i64::from(bool)` is `1`/`0`. -/
structure PaginateMath where
  effective_page_size : Int
  limit : Int
  offset : Int
  num_pages : Int
deriving Repr, DecidableEq

/-- The arithmetic of the emitted `paginate` body (src/code.rs lines
331-341). -/
def paginateMath (page page_size total_items : Int) : PaginateMath :=
  let page_size := if page_size < 1 then 1 else page_size
  { effective_page_size := page_size
    limit := page_size
    offset := page * page_size
    num_pages :=
      total_items.tdiv page_size +
        (if total_items.tmod page_size != 0 then 1 else 0) }

/-- Modelled from the spec: the fixed provenance header contributed by the
out-of-scope parser module (`FILE_SIGNATURE`); its exact text is irrelevant to
every claim. -/
def FILE_SIGNATURE : String := "/* @generated and managed by dsync */"

/-- `build_imports` (src/code.rs lines 378-405). -/
def buildImports (table : ParsedTableMacro) (config : GenerationConfig) : String :=
  let belongs_imports := String.intercalate "\n"
    (table.foreign_keys.map (fun fk =>
      "use crate::models::" ++ (toSnakeCase fk.1).toLower ++ "::" ++
        toSingular (toPascalCase fk.1) ++ ";"))
  "use crate::diesel::*;\nuse crate::schema::*;\nuse diesel::QueryResult;\nuse serde::\x7bDeserialize, Serialize\x7d;\n" ++
    belongs_imports ++ "\n\ntype Connection = " ++ config.connection_type ++ ";\n"

/-- `generate_for_table` (src/code.rs lines 407-424). -/
def generateForTable (table : ParsedTableMacro) (config : GenerationConfig) :
    Option String :=
  let read_struct := Struct.new .Read table config
  let update_struct := Struct.new .Update table config
  let create_struct := Struct.new .Create table config
  let structs := read_struct.code ++ "\n" ++ create_struct.code ++ "\n" ++ update_struct.code
  (buildTableFns table create_struct update_struct).map (fun fns =>
    FILE_SIGNATURE ++ "\n\n" ++ buildImports table config ++ "\n" ++ structs ++
      "\n" ++ fns.buffer)

/-- Example descriptor from the spec's end-to-end scenario: table `posts` with
an autogenerated primary key `id`, a non-null `title` and a nullable `body`. -/
def postsT : ParsedTableMacro :=
  { name := "posts", struct_name := "Post"
    columns := [⟨"id", "i32", false⟩, ⟨"title", "String", false⟩, ⟨"body", "String", true⟩]
    primary_key_columns := ["id"]
    foreign_keys := [] }

/-- Options for `posts`: only `id` is autogenerated. -/
def postsO : TableOptions := { autogenerated_columns := some ["id"] }

/-- A config mapping every table to the `posts` options. -/
def postsCfg : GenerationConfig :=
  { connection_type := "PgConnection", tableOf := fun _ => postsO }

/-- Example descriptor from the spec's join-table scenario: `post_tags` with a
composite primary key declared in the order `(tag_id, post_id)`, the reverse
of the column declaration order. -/
def postTagsT : ParsedTableMacro :=
  { name := "post_tags", struct_name := "PostTag"
    columns := [⟨"post_id", "i32", false⟩, ⟨"tag_id", "i32", false⟩]
    primary_key_columns := ["tag_id", "post_id"]
    foreign_keys := [] }

/-- Options with no autogenerated columns. -/
def noneO : TableOptions := { autogenerated_columns := none }

/-- A config mapping every table to empty options. -/
def postTagsCfg : GenerationConfig :=
  { connection_type := "PgConnection", tableOf := fun _ => noneO }

/-- An all-empty `TableFns`, used only as the default of `Option.getD` when
naming concretely computed values. -/
def emptyTableFns : TableFns := ⟨"", "", "", "", "", "", "", none, "", ""⟩

/-- The sections `build_table_fns` computes for the `posts` example. -/
def postsFns : TableFns :=
  (buildTableFns postsT (Struct.new .Create postsT postsCfg)
    (Struct.new .Update postsT postsCfg)).getD emptyTableFns

/-- The primary-key name/type list computed for the `post_tags` example. -/
def postTagsPkl : List (String × String) :=
  (pkNameAndType postTagsT.columns postTagsT.primary_key_columns).getD []

/-- The sections `build_table_fns` computes for the `post_tags` example. -/
def postTagsFns : TableFns :=
  (buildTableFns postTagsT (Struct.new .Create postTagsT postTagsCfg)
    (Struct.new .Update postTagsT postTagsCfg)).getD emptyTableFns

/-- `Struct::new` leaves both `Option` fields set: `render` runs before the
constructor returns and assigns `has_fields` in every branch. -/
theorem Struct.new_hasFields (ty : StructType) (t : ParsedTableMacro) (cfg : GenerationConfig) :
    (Struct.new ty t cfg).hasFields = !(structFields ty t (cfg.tableOf t.name)).isEmpty := by
  unfold Struct.new Struct.render Struct.hasFields
  dsimp only [Struct.fields]
  split <;> rename_i h <;> simp_all

/-- `render` does not change the identifier computed by `Struct::new`. -/
theorem Struct.new_identifier (ty : StructType) (t : ParsedTableMacro) (cfg : GenerationConfig) :
    (Struct.new ty t cfg).identifier = ty.format t.struct_name := by
  unfold Struct.new Struct.render
  dsimp only
  split <;> rfl

/-- If a name is not `contains`-member of a string list, the `any`-form
primary-key test of `Struct::fields` is false as well. -/
theorem pkAny_false_of_contains_false {l : List String} {n : String}
    (h : l.contains n = false) : (l.any fun pk => pk == n) = false := by
  simp only [List.contains, List.elem_eq_mem, decide_eq_false_iff_not] at h
  simp only [List.any_eq_false, beq_iff_eq]
  intro pk hpk he
  exact h (he ▸ hpk)

/-- Wrapping an already-wrapped optional type merges into the doubly nested
literal form. -/
theorem optionWrap_merge (s : String) :
    "Option<" ++ ("Option<" ++ s ++ ">") ++ ">" = "Option<Option<" ++ s ++ ">>" := by
  apply String.ext
  have hOO : ("Option<Option<" : String).data =
      ("Option<" : String).data ++ ("Option<" : String).data := rfl
  have hGG : (">>" : String).data = (">" : String).data ++ (">" : String).data := rfl
  simp [String.data_append, hOO, hGG, List.append_assoc]

/-- `replaceAux` keeps a head character that does not start the pattern. -/
theorem replaceAux_cons_ne (p : Char) (ps rep : List Char) (c : Char) (l : List Char)
    (h : (p == c) = false) :
    replaceAux p ps rep (c :: l) = c :: replaceAux p ps rep l := by
  rw [replaceAux.eq_def]
  dsimp only
  simp [List.isPrefixOf_cons₂, h]

/-- Replacing `$COLUMNS$` in a string that starts with a hash character never
yields the empty string. -/
theorem strReplace_hash_ne_empty (str r : String) (l : List Char)
    (hdata : str.data = '#' :: l) :
    strReplace str "$COLUMNS$" r ≠ "" := by
  unfold strReplace
  have hpat : ("$COLUMNS$" : String).data = '$' :: ['C','O','L','U','M','N','S','$'] := rfl
  rw [hpat]
  dsimp only
  rw [hdata, replaceAux_cons_ne _ _ _ _ _ (by decide)]
  intro h
  exact absurd (congrArg String.data h) (by simp)

/-- The rendered struct template always begins with the hash of the derive
attribute. -/
theorem renderStructCode_head (s : Struct) :
    (renderStructCode s).data.head? = some '#' := by
  unfold renderStructCode Struct.attr_derive attr_tsync
  dsimp only
  simp [String.data_append, List.append_assoc]

/-- Existential form of `renderStructCode_head`. -/
theorem renderStructCode_data (s : Struct) :
    ∃ l, (renderStructCode s).data = '#' :: l := by
  have h := renderStructCode_head s
  cases hd : (renderStructCode s).data with
  | nil => rw [hd] at h; simp at h
  | cons c tl =>
    rw [hd] at h
    simp at h
    exact ⟨tl, by rw [h]⟩

/-- An empty field selection renders to the empty string. -/
theorem Struct.new_code_empty (ty : StructType) (t : ParsedTableMacro) (cfg : GenerationConfig)
    (h : structFields ty t (cfg.tableOf t.name) = []) :
    (Struct.new ty t cfg).code = "" := by
  unfold Struct.new Struct.render Struct.code
  dsimp only [Struct.fields]
  simp [h]

/-- A non-empty field selection renders to a non-empty source text. -/
theorem Struct.new_code_nonempty (ty : StructType) (t : ParsedTableMacro) (cfg : GenerationConfig)
    (h : structFields ty t (cfg.tableOf t.name) ≠ []) :
    (Struct.new ty t cfg).code ≠ "" := by
  unfold Struct.new Struct.render Struct.code
  dsimp only [Struct.fields]
  have hb : (structFields ty t (cfg.tableOf t.name)).isEmpty = false := by
    cases hs : structFields ty t (cfg.tableOf t.name) with
    | nil => exact absurd hs h
    | cons a l => rfl
  simp only [hb, Bool.false_eq_true, if_false, Option.getD_some]
  obtain ⟨l, hl⟩ := renderStructCode_data
    ⟨StructType.format ty t.struct_name, ty, t, cfg.tableOf t.name, none, none⟩
  exact strReplace_hash_ne_empty _ _ l hl

/-- The name/type pairs computed by `build_table_fns` follow the declared
primary-key order and take each type from the matching column. -/
theorem pkNameAndType_spec (cols : List Column) :
    ∀ (pks : List String) (l : List (String × String)),
      pkNameAndType cols pks = some l →
      l.map Prod.fst = pks ∧ ∀ p ∈ l, ∃ c ∈ cols, c.name = p.1 ∧ c.ty = p.2 := by
  intro pks
  induction pks with
  | nil =>
    intro l h
    simp only [pkNameAndType, Option.some.injEq] at h
    subst h
    simp
  | cons pk rest ih =>
    intro l h
    rw [pkNameAndType.eq_def] at h
    dsimp only at h
    rcases hf : cols.find? (fun it => it.name == pk) with _ | col
    · rw [hf] at h; simp at h
    · rw [hf] at h
      rcases hrec : pkNameAndType cols rest with _ | l'
      · rw [hrec] at h; simp at h
      · rw [hrec] at h
        simp only [Option.map_some', Option.some.injEq] at h
        subst h
        have hname : col.name = pk := by
          have := List.find?_some hf
          simpa using this
        have hmem : col ∈ cols := List.mem_of_find?_eq_some hf
        obtain ⟨ih1, ih2⟩ := ih l' hrec
        refine ⟨by simp [ih1, hname], ?_⟩
        intro p hp
        rcases List.mem_cons.mp hp with hp | hp
        · subst hp; exact ⟨col, hmem, rfl, rfl⟩
        · exact ih2 p hp

/-- C1 (counterexample): in the `posts` table the nullable non-key column
`body` is selected into the Update variant and its emitted field type carries
two nested layers of optionality, `Option<Option<String>>`, not the single
layer `Option<String>` the claim demands. -/
theorem c1_single_optional_layer_counterexample :
    ∃ f ∈ structFields .Update postsT postsO,
      f.name = "body" ∧ fieldTypeStr f = "Option<Option<String>>" ∧
        fieldTypeStr f ≠ "Option<String>" := by decide

/-- C1 (amended): for every table, options and nullable column that is not a
primary-key column, the Update variant selects the column and emits its field
type with exactly two nested layers of optionality — the optional-of-base
wrapping from nullability and the forced-optional wrapping for partial update
are both applied, not collapsed. -/
theorem c1_update_nullable_field_double_optional (t : ParsedTableMacro) (o : TableOptions)
    (c : Column) (hc : c ∈ t.columns) (hnul : c.is_nullable = true)
    (hnpk : t.primary_key_columns.contains c.name = false) :
    ∃ f ∈ structFields .Update t o, f.name = c.name ∧
      fieldTypeStr f = "Option<Option<" ++ c.ty ++ ">>" := by
  have hany := pkAny_false_of_contains_false hnpk
  have hnmem : c.name ∉ t.primary_key_columns := by
    simpa [List.contains] using hnpk
  have hmem : (⟨c.name, "Option<" ++ c.ty ++ ">", true⟩ : StructField) ∈
      structFields .Update t o := by
    simp only [structFields, List.mem_map, List.mem_filter]
    refine ⟨c, ⟨hc, by simp [hnmem]⟩, ?_⟩
    simp [hnul, hany]
  refine ⟨_, hmem, rfl, ?_⟩
  show "Option<" ++ ("Option<" ++ c.ty ++ ">") ++ ">" = "Option<Option<" ++ c.ty ++ ">>"
  exact optionWrap_merge c.ty

/-- C1 (witness): the amended theorem applied to the `body` column of the
`posts` example. -/
theorem c1_update_nullable_field_double_optional_witness :
    ∃ f ∈ structFields .Update postsT postsO, f.name = "body" ∧
      fieldTypeStr f = "Option<Option<" ++ "String" ++ ">>" :=
  c1_update_nullable_field_double_optional postsT postsO ⟨"body", "String", true⟩
    (by decide) rfl (by decide)

/-- C2: the Update variant's field selection never includes a column whose
name is a primary-key column name, and every selected field is forced
optional. -/
theorem c2_update_selection_excludes_pk_and_forces_optional
    (t : ParsedTableMacro) (o : TableOptions) :
    ∀ f ∈ structFields .Update t o,
      t.primary_key_columns.contains f.name = false ∧ f.is_optional = true := by
  intro f hf
  simp only [structFields, List.mem_map, List.mem_filter] at hf
  obtain ⟨c, ⟨hc, hfilt⟩, rfl⟩ := hf
  have h1 : t.primary_key_columns.contains c.name = false := by simpa using hfilt
  have h2 := pkAny_false_of_contains_false h1
  exact ⟨h1, by simp [h2]⟩

/-- C2 (witness): the theorem applied to the `title` field of the `posts`
example's Update selection. -/
theorem c2_update_selection_excludes_pk_and_forces_optional_witness :
    postsT.primary_key_columns.contains
        (⟨"title", "String", true⟩ : StructField).name = false ∧
      (⟨"title", "String", true⟩ : StructField).is_optional = true :=
  c2_update_selection_excludes_pk_and_forces_optional postsT postsO
    ⟨"title", "String", true⟩ (by decide)

/-- C3: the derive attribute of a generated record type consists of the base
capabilities followed by the `AsChangeset` part, and that part is omitted
(empty) exactly when every selected field's name is a primary-key column name
— vacuously so for an empty field set — and otherwise is the `AsChangeset`
annotation. -/
theorem c3_aschangeset_omitted_iff_all_fields_pk (s : Struct) :
    Struct.attr_derive s =
      "#[derive(Debug, Serialize, Deserialize, Clone, Queryable, Insertable" ++
        derive_aschangeset s.ty s.table s.opts ++
        derive_identifiable s.ty s.table ++
        derive_associations s.ty s.table ++ ")]" ∧
    (derive_aschangeset s.ty s.table s.opts = "" ↔
      ∀ f ∈ structFields s.ty s.table s.opts,
        f.name ∈ s.table.primary_key_column_names) ∧
    (derive_aschangeset s.ty s.table s.opts = "" ∨
      derive_aschangeset s.ty s.table s.opts = ", AsChangeset") := by
  refine ⟨rfl, ?_, ?_⟩
  · unfold derive_aschangeset
    split <;> rename_i h
    · simp only [List.all_eq_true, List.contains, List.elem_eq_mem,
        decide_eq_true_eq] at h
      simpa using h
    · simp only [List.all_eq_true, List.contains, List.elem_eq_mem,
        decide_eq_true_eq] at h
      constructor
      · intro habs
        exact absurd habs (by decide)
      · intro hall
        exact absurd hall h
  · unfold derive_aschangeset
    split
    · exact Or.inl rfl
    · exact Or.inr rfl

/-- C3 (witness): the theorem applied to the Update struct of the `posts`
example. -/
theorem c3_aschangeset_omitted_iff_all_fields_pk_witness :
    derive_aschangeset .Update postsT postsO = "" ∨
      derive_aschangeset .Update postsT postsO = ", AsChangeset" :=
  (c3_aschangeset_omitted_iff_all_fields_pk
    ⟨"UpdatePost", .Update, postsT, postsO, none, none⟩).2.2

/-- C4: in the emitted paginate arithmetic, a page size below 1 is clamped to
1 and used for both the limit and the offset (`page * effective`);
`num_pages` is the integer quotient plus one exactly when the remainder is
nonzero; it is 0 for zero total items, and 4 for 10 items at page size 3. -/
theorem c4_paginate_clamp_and_num_pages (page page_size total_items : Int)
    (h : 0 ≤ total_items) :
    (paginateMath page page_size total_items).effective_page_size =
        (if page_size < 1 then 1 else page_size) ∧
    (paginateMath page page_size total_items).limit =
        (paginateMath page page_size total_items).effective_page_size ∧
    (paginateMath page page_size total_items).offset =
        page * (paginateMath page page_size total_items).effective_page_size ∧
    (paginateMath page page_size total_items).num_pages =
        total_items / (paginateMath page page_size total_items).effective_page_size +
          (if total_items % (paginateMath page page_size total_items).effective_page_size ≠ 0
            then 1 else 0) ∧
    (total_items = 0 → (paginateMath page page_size total_items).num_pages = 0) ∧
    (paginateMath 0 3 10).num_pages = 4 := by
  have hpos : (0:Int) ≤ (if page_size < 1 then 1 else page_size) := by
    split <;> omega
  refine ⟨rfl, rfl, rfl, ?_, ?_, by decide⟩
  · unfold paginateMath
    dsimp only
    rw [Int.tdiv_eq_ediv h hpos, Int.tmod_eq_emod h hpos]
    simp [bne_iff_ne]
  · intro h0
    subst h0
    unfold paginateMath
    dsimp only
    simp

/-- C4 (witness): the theorem applied at page 2, requested page size -5 and 7
total items. -/
theorem c4_paginate_clamp_and_num_pages_witness :
    (paginateMath 2 (-5) 7).num_pages =
        (7:Int) / (paginateMath 2 (-5) 7).effective_page_size +
          (if (7:Int) % (paginateMath 2 (-5) 7).effective_page_size ≠ 0 then 1 else 0) :=
  (c4_paginate_clamp_and_num_pages 2 (-5) 7 (by decide)).2.2.2.1

/-- C5: whenever every declared primary-key column is found among the table's
columns, the keyed operations take one parameter and one equality filter per
primary-key column, both in the descriptor's declared primary-key order (the
name/type list maps onto the declared order, with each type taken from the
matching column), and the read, update and delete sections are built from
exactly that parameter list and filter conjunction. -/
theorem c5_keyed_ops_follow_declared_pk_order (t : ParsedTableMacro) (cs us : Struct)
    (fns : TableFns) (pkl : List (String × String))
    (hpk : pkNameAndType t.columns t.primary_key_columns = some pkl)
    (hb : buildTableFns t cs us = some fns) :
    pkl.map Prod.fst = t.primary_key_columns ∧
    (∀ p ∈ pkl, ∃ c ∈ t.columns, c.name = p.1 ∧ c.ty = p.2) ∧
    fns.item_id_params =
      String.intercalate ", " (pkl.map (fun nt => "param_" ++ nt.1 ++ ": " ++ nt.2)) ∧
    fns.item_id_filters =
      String.intercalate "."
        (pkl.map (fun nt => "filter(" ++ nt.1 ++ ".eq(param_" ++ nt.1 ++ "))")) ∧
    fns.readSection = readSectionStr t.name fns.item_id_params fns.item_id_filters ∧
    fns.deleteSection = deleteSectionStr t.name fns.item_id_params fns.item_id_filters ∧
    (∀ s ∈ fns.updateSection,
      s = updateSectionStr t.name fns.item_id_params fns.item_id_filters us.identifier) := by
  obtain ⟨h1, h2⟩ := pkNameAndType_spec t.columns t.primary_key_columns pkl hpk
  unfold buildTableFns at hb
  rw [hpk] at hb
  dsimp only at hb
  injection hb with hb
  subst hb
  dsimp only
  refine ⟨h1, h2, rfl, rfl, rfl, rfl, ?_⟩
  intro s hs
  rcases hus : us.hasFields with _ | _
  · rw [hus] at hs; simp at hs
  · rw [hus] at hs; simp at hs; exact hs.symm

/-- C5 (witness): for the `post_tags` example, whose primary key is declared
as `(tag_id, post_id)` — the reverse of column order — the computed name list
follows the declared primary-key order. -/
theorem c5_keyed_ops_follow_declared_pk_order_witness :
    postTagsPkl.map Prod.fst = postTagsT.primary_key_columns :=
  (c5_keyed_ops_follow_declared_pk_order postTagsT
    (Struct.new .Create postTagsT postTagsCfg) (Struct.new .Update postTagsT postTagsCfg)
    postTagsFns postTagsPkl (by rfl) (by rfl)).1

/-- C6: the update function is part of the generated operations block exactly
when the Update variant's field selection is non-empty; when it is empty the
block's update section is absent. -/
theorem c6_update_fn_emitted_iff_update_fields (t : ParsedTableMacro)
    (cfg : GenerationConfig) (cs : Struct) (fns : TableFns)
    (h : buildTableFns t cs (Struct.new .Update t cfg) = some fns) :
    (fns.updateSection.isSome = true ↔ structFields .Update t (cfg.tableOf t.name) ≠ []) ∧
    (structFields .Update t (cfg.tableOf t.name) = [] → fns.updateSection = none) ∧
    (structFields .Update t (cfg.tableOf t.name) ≠ [] →
      fns.updateSection = some (updateSectionStr t.name fns.item_id_params fns.item_id_filters
        (StructType.format .Update t.struct_name))) := by
  unfold buildTableFns at h
  rcases hpk : pkNameAndType t.columns t.primary_key_columns with _ | pkl
  · rw [hpk] at h; exact absurd h (by simp)
  · rw [hpk] at h
    dsimp only at h
    injection h with h
    subst h
    dsimp only
    rw [Struct.new_hasFields, Struct.new_identifier]
    cases hs : structFields .Update t (cfg.tableOf t.name) with
    | nil => simp [hs]
    | cons a l => simp [hs]

/-- C6 (witness): the theorem applied to the `posts` example, whose Update
selection is non-empty. -/
theorem c6_update_fn_emitted_iff_update_fields_witness :
    postsFns.updateSection.isSome = true ↔
      structFields .Update postsT (postsCfg.tableOf postsT.name) ≠ [] :=
  (c6_update_fn_emitted_iff_update_fields postsT postsCfg
    (Struct.new .Create postsT postsCfg) postsFns (by rfl)).1

/-- C7: the generated create operation takes a Create-variant payload
parameter exactly when the Create selection is non-empty; otherwise it is the
payload-free default-values insert. -/
theorem c7_create_payload_iff_create_fields (t : ParsedTableMacro)
    (cfg : GenerationConfig) (us : Struct) (fns : TableFns)
    (h : buildTableFns t (Struct.new .Create t cfg) us = some fns) :
    (structFields .Create t (cfg.tableOf t.name) ≠ [] →
      fns.createSection =
        createPayloadSectionStr t.name (StructType.format .Create t.struct_name)) ∧
    (structFields .Create t (cfg.tableOf t.name) = [] →
      fns.createSection = createDefaultSectionStr t.name) := by
  unfold buildTableFns at h
  rcases hpk : pkNameAndType t.columns t.primary_key_columns with _ | pkl
  · rw [hpk] at h; exact absurd h (by simp)
  · rw [hpk] at h
    dsimp only at h
    injection h with h
    subst h
    dsimp only
    rw [Struct.new_hasFields, Struct.new_identifier]
    cases hs : structFields .Create t (cfg.tableOf t.name) with
    | nil => simp [hs]
    | cons a l => simp [hs]

/-- C7 (witness): the `posts` example has a non-empty Create selection, so its
create section is the payload-taking one. -/
theorem c7_create_payload_iff_create_fields_witness :
    postsFns.createSection =
      createPayloadSectionStr postsT.name (StructType.format .Create postsT.struct_name) :=
  (c7_create_payload_iff_create_fields postsT postsCfg
    (Struct.new .Update postsT postsCfg) postsFns (by rfl)).1 (by decide)

/-- C8: the Create variant's selection includes a column exactly when its name
is not among the autogenerated column names, and every selected field has no
forced optionality — its emitted optionality comes only from the column's
nullability. -/
theorem c8_create_selection_excludes_exactly_autogenerated
    (t : ParsedTableMacro) (o : TableOptions) :
    (∀ c ∈ t.columns,
        ((∃ f ∈ structFields .Create t o, f.name = c.name) ↔
          isAutogenerated o c.name = false)) ∧
    (∀ f ∈ structFields .Create t o,
        f.is_optional = false ∧
        ∃ c ∈ t.columns, c.name = f.name ∧
          f.base_type = (if c.is_nullable then "Option<" ++ c.ty ++ ">" else c.ty)) := by
  constructor
  · intro c hc
    constructor
    · rintro ⟨f, hf, hname⟩
      simp only [structFields, List.mem_map, List.mem_filter] at hf
      obtain ⟨c', ⟨hc', hfilt⟩, rfl⟩ := hf
      simp only [Bool.not_eq_true'] at hfilt
      dsimp only at hname
      rw [← hname]
      exact hfilt
    · intro hna
      refine ⟨⟨c.name, if c.is_nullable then "Option<" ++ c.ty ++ ">" else c.ty, false⟩,
        ?_, rfl⟩
      simp only [structFields, List.mem_map, List.mem_filter]
      exact ⟨c, ⟨hc, by simp [hna]⟩, rfl⟩
  · intro f hf
    simp only [structFields, List.mem_map, List.mem_filter] at hf
    obtain ⟨c', ⟨hc', hfilt⟩, rfl⟩ := hf
    exact ⟨rfl, c', hc', rfl, rfl⟩

/-- C8 (witness): the theorem's selection criterion applied to the `title`
column of the `posts` example. -/
theorem c8_create_selection_excludes_exactly_autogenerated_witness :
    (∃ f ∈ structFields .Create postsT postsO,
        f.name = (⟨"title", "String", false⟩ : Column).name) ↔
      isAutogenerated postsO (⟨"title", "String", false⟩ : Column).name = false :=
  (c8_create_selection_excludes_exactly_autogenerated postsT postsO).1
    ⟨"title", "String", false⟩ (by decide)

/-- C9: for a well-formed descriptor (at least one column), the Read record
type has fields and renders to non-empty source text, and for every variant
the rendered source text is empty exactly when the variant's field list is
empty — so Create and Update are omitted precisely when they have no
fields. -/
theorem c9_read_always_rendered_create_update_iff_fields (t : ParsedTableMacro)
    (cfg : GenerationConfig) (h : t.columns ≠ []) :
    (Struct.new .Read t cfg).hasFields = true ∧
    (Struct.new .Read t cfg).code ≠ "" ∧
    (∀ ty : StructType,
      ((Struct.new ty t cfg).code = "" ↔ structFields ty t (cfg.tableOf t.name) = [])) := by
  have hread : structFields .Read t (cfg.tableOf t.name) ≠ [] := by
    cases hc : t.columns with
    | nil => exact absurd hc h
    | cons c cs => simp [structFields, hc, List.filter_cons]
  refine ⟨?_, Struct.new_code_nonempty _ _ _ hread, ?_⟩
  · rw [Struct.new_hasFields]
    cases hs : structFields .Read t (cfg.tableOf t.name) with
    | nil => exact absurd hs hread
    | cons a l => rfl
  · intro ty
    constructor
    · intro hcode
      by_contra hne
      exact Struct.new_code_nonempty ty t cfg hne hcode
    · exact Struct.new_code_empty ty t cfg

/-- C9 (witness): the theorem applied to the `posts` example. -/
theorem c9_read_always_rendered_create_update_iff_fields_witness :
    (Struct.new .Read postsT postsCfg).hasFields = true :=
  (c9_read_always_rendered_create_update_iff_fields postsT postsCfg (by decide)).1

/-- C10: `Struct::new` always runs `render`, and `render` sets both
`has_fields` and `rendered_code` in every branch, so the accessors backed by
`unwrap`/`unwrap_or_default` never see a missing value on a struct built by
the public constructor. -/
theorem c10_new_render_sets_accessors (ty : StructType) (t : ParsedTableMacro)
    (cfg : GenerationConfig) :
    (Struct.new ty t cfg).has_fields.isSome = true ∧
      (Struct.new ty t cfg).rendered_code.isSome = true := by
  unfold Struct.new Struct.render
  dsimp only
  split <;> simp

end Dsync
